import Mathlib

/-!
Shallow embedding of the osquery scheduled differential query engine
(src/osquery/dispatcher/scheduler.cpp) and of the Differential Store and
schedule-building collaborators it depends on, together with theorems
settling the specification claims about them.
-/

namespace OsquerySched

/-- A result row: an ordered mapping from column name to string value
(osquery `Row`).  Two rows are equal iff all column/value pairs match. -/
abbrev Row := List (String × String)

/-- A set of rows (order irrelevant, duplicates collapse). -/
abbrev RowSet := Finset Row

/-- A scheduled query, as consumed by the scheduler loop
(`query.second` in `SchedulerRunner::start`): query text, nominal
interval, splayed interval used for due-checks, and the boolean options
map (`snapshot`, `removed`). -/
structure ScheduledQuery where
  query : String
  interval : Nat
  splayed_interval : Nat
  options : List (String × Bool)
deriving DecidableEq

/-- Result of executing a query via the query-execution collaborator
(`SQLInternal` / `SQL`): a status and the produced rows. -/
structure SQL where
  ok : Bool
  rows : List Row
deriving DecidableEq

/-- Differential results: rows added since the stored baseline and rows
removed from it (`DiffResults` in the source). -/
structure DiffResults where
  added : RowSet
  removed : RowSet
deriving DecidableEq

/-- A query log item (`QueryLogItem`): query name, host identifier, and
either a snapshot payload or a differential payload. -/
structure QueryLogItem where
  name : String
  identifier : String
  snapshot_results : List Row
  results : DiffResults
deriving DecidableEq

/-- An emission to the logging sink: `logSnapshotQuery` or
`logQueryLogItem` in `launchQuery`. -/
inductive LogEvent where
  | snapshot (item : QueryLogItem)
  | differential (item : QueryLogItem)
deriving DecidableEq

/-- The Differential Store's backend state: the persisted baseline row
set per query name. -/
abbrev Store := List (String × RowSet)

/-- Read the baseline persisted for a query name. -/
def storeGet (s : Store) (n : String) : Option RowSet :=
  s.lookup n

/-- Persist a new baseline row set for a query name. -/
def storePut (s : Store) (n : String) (v : RowSet) : Store :=
  (n, v) :: s

/-- Output of the Differential Store: the diff plus the updated backend
state. -/
structure AddResultsOut where
  diff : DiffResults
  store : Store
deriving DecidableEq

/-- Modelled from the spec: `Query::addNewResults` (the Differential
Store), whose implementation is not part of the shown sources.  Per
spec section 4.2: load the baseline for `name` (absent treated as the
empty row set), compute `added = newRows − baseline` and
`removed = baseline − newRows` by full-row equality, persist `newRows`
as the new baseline unconditionally, and return the diff. -/
def addResults (store : Store) (name : String) (newRows : RowSet) : AddResultsOut :=
  let baseline : RowSet := (storeGet store name).getD ∅
  { diff := { added := newRows \ baseline, removed := baseline \ newRows }
    store := storePut store name newRows }

/-- Total character size of the result rows, as computed by `monitor`
(scheduler.cpp lines 39-45): the sum over all rows of the lengths of
every column name and every value. -/
def rowsSize (rows : List Row) : Nat :=
  (rows.map (fun row => (row.map (fun c => c.1.length + c.2.length)).sum)).sum

/-- A performance sample handed to `Config::recordQueryPerformance`. -/
structure PerformanceSample where
  name : String
  duration : Nat
  size : Nat
  before : Row
  after : Row
deriving DecidableEq

/-- Output of `monitor`: the optionally recorded performance sample and
the query's own SQL result, returned unchanged. -/
structure MonitorOut where
  sample : Option PerformanceSample
  sql : SQL
deriving DecidableEq

/-- The schedule monitor (`monitor`, scheduler.cpp lines 29-49).  Inputs
mirror the data the code obtains from its collaborators in order:
`r0` the process self-sample before execution, `t0` the wall time
before, `sql` the query's execution result, `t1` the wall time after,
`r1` the self-sample after.  When both self-samples are non-empty it
records a performance sample; either way the query's own result is
returned unchanged. -/
def monitor (name : String) (r0 : List Row) (t0 : Nat) (sql : SQL) (t1 : Nat)
    (r1 : List Row) : MonitorOut :=
  if 0 < r0.length ∧ 0 < r1.length then
    { sample := some
        { name := name
          duration := t1 - t0
          size := rowsSize sql.rows
          before := r0.headD []
          after := r1.headD [] }
      sql := sql }
  else
    { sample := none, sql := sql }

/-- Output of one `launchQuery` call: the Differential Store state
afterwards and the items sent to the logging sink. -/
structure LaunchOut where
  store : Store
  events : List LogEvent
deriving DecidableEq

/-- `launchQuery` (scheduler.cpp lines 51-109), given the execution
result `sql` produced by the query-execution collaborator (possibly
through `monitor`, which returns it unchanged).  On execution error,
return with no effect.  On a snapshot query, emit the full row set and
never touch the store.  Otherwise route the rows through the
Differential Store; emit nothing when the diff is empty; otherwise emit
the diff, with `removed` cleared in the item only when the `removed`
option is explicitly false. -/
def launchQuery (ident : String) (store : Store) (name : String)
    (query : ScheduledQuery) (sql : SQL) : LaunchOut :=
  if sql.ok = true then
    let item : QueryLogItem :=
      { name := name, identifier := ident, snapshot_results := []
        results := { added := ∅, removed := ∅ } }
    if query.options.lookup "snapshot" = some true then
      { store := store
        events := [LogEvent.snapshot { item with snapshot_results := sql.rows }] }
    else
      let out := addResults store name sql.rows.toFinset
      if out.diff.added = ∅ ∧ out.diff.removed = ∅ then
        { store := out.store, events := [] }
      else
        let item := { item with results := out.diff }
        let item :=
          if query.options.lookup "removed" = some false then
            { item with results := { item.results with removed := ∅ } }
          else item
        { store := out.store, events := [LogEvent.differential item] }
  else
    { store := store, events := [] }

/-- Output of one tick of the scheduler loop: the store afterwards, the
emitted items, and the schedule entries that were executed. -/
structure TickOut where
  store : Store
  events : List LogEvent
  launched : List (String × ScheduledQuery)
deriving DecidableEq

/-- One iteration of the tick loop body (`SchedulerRunner::start`,
scheduler.cpp lines 116-123): for every entry of the schedule snapshot,
launch it iff `i % splayed_interval == 0`, threading the Differential
Store state through.  `exec` is the query-execution collaborator, keyed
by query text. -/
def runTick (ident : String) (exec : String → SQL) (i : Nat) (store : Store) :
    List (String × ScheduledQuery) → TickOut
  | [] => { store := store, events := [], launched := [] }
  | (n, q) :: rest =>
    if i % q.splayed_interval = 0 then
      let r := launchQuery ident store n q (exec q.query)
      let t := runTick ident exec i r.store rest
      { store := t.store, events := r.events ++ t.events
        launched := (n, q) :: t.launched }
    else
      runTick ident exec i store rest

/-- The loop guard of `SchedulerRunner::start` (line 115):
`(timeout_ == 0) || (i <= timeout_)`. -/
def loopCond (timeout i : Nat) : Bool :=
  timeout == 0 || i ≤ timeout

/-- Number of iterations the `for` loop of `SchedulerRunner::start`
performs when `timeout` is non-zero, starting from tick counter `i`
(initialized from the wall-clock seconds-of-minute): iterate while
`i ≤ timeout`, incrementing `i`. -/
def loopIters (timeout i : Nat) : Nat :=
  if i ≤ timeout then loopIters timeout (i + 1) + 1 else 0
termination_by timeout + 1 - i

/-- The scheduler loop of `SchedulerRunner::start` for a non-zero
timeout: run ticks while `i ≤ timeout` against a fixed schedule
snapshot source, threading the store. -/
def schedLoop (ident : String) (config : List (String × ScheduledQuery))
    (exec : String → SQL) (timeout i : Nat) (store : Store) :
    Store × List LogEvent :=
  if i ≤ timeout then
    let t := runTick ident exec i store config
    let r := schedLoop ident config exec timeout (i + 1) t.store
    (r.1, t.events ++ r.2)
  else
    (store, [])
termination_by timeout + 1 - i

/-- Modelled from the spec: the configuration snapshot builder (not part
of the shown sources), which per spec sections 4.1 and 7 must reject a
`ScheduledQuery` whose splayed interval is non-positive when the
snapshot is built, before the loop can observe it. -/
def buildSchedule (raw : List (String × ScheduledQuery)) :
    List (String × ScheduledQuery) :=
  raw.filter (fun p => decide (0 < p.2.splayed_interval))

/-- Concrete row used by the witness theorems. -/
def wRow : Row := [("c", "v")]

/-- Concrete successful execution result used by the witness theorems. -/
def wSql : SQL := { ok := true, rows := [wRow] }

/-- Concrete failed execution result used by the witness theorems. -/
def wSqlBad : SQL := { ok := false, rows := [] }

/-- Concrete query-execution collaborator that always fails. -/
def wExecBad : String → SQL := fun _ => wSqlBad

/-- Concrete snapshot query used by the witness theorems. -/
def wSnapQ : ScheduledQuery :=
  { query := "s", interval := 1, splayed_interval := 1
    options := [("snapshot", true)] }

/-- Concrete differential query with `removed` explicitly false. -/
def wRemQ : ScheduledQuery :=
  { query := "s", interval := 1, splayed_interval := 1
    options := [("removed", false)] }

/-- Concrete differential query with an empty options map. -/
def wPlainQ : ScheduledQuery :=
  { query := "s", interval := 1, splayed_interval := 1, options := [] }

/-- Concrete query with a zero splayed interval, rejected by
`buildSchedule`. -/
def wZeroQ : ScheduledQuery :=
  { query := "z", interval := 0, splayed_interval := 0, options := [] }

/-- Concrete store already holding `wSql`'s rows as the baseline. -/
def wStore : Store := [("nm", wSql.rows.toFinset)]

/-- Claim C1: `addResults` computes `added = newRows − baseline` and
`removed = baseline − newRows` by full-row equality with an absent
baseline treated as empty, persists `newRows` as the new baseline
unconditionally, and the returned sets are disjoint. -/
theorem addResults_spec (store : Store) (name : String) (newRows : RowSet) :
    (addResults store name newRows).diff.added
        = newRows \ (storeGet store name).getD ∅ ∧
    (addResults store name newRows).diff.removed
        = (storeGet store name).getD ∅ \ newRows ∧
    storeGet (addResults store name newRows).store name = some newRows ∧
    Disjoint (addResults store name newRows).diff.added
        (addResults store name newRows).diff.removed := by
  refine ⟨rfl, rfl, ?_, ?_⟩
  · simp [addResults, storeGet, storePut]
  · exact disjoint_sdiff_sdiff

/-- Claim C2: a schedule entry is executed on tick `i` iff
`i mod splayed_interval == 0` (scheduler.cpp lines 118-121). -/
theorem runTick_launched_iff (ident : String) (exec : String → SQL) (i : Nat) :
    ∀ (sched : List (String × ScheduledQuery)) (store : Store)
      (p : String × ScheduledQuery),
    p ∈ (runTick ident exec i store sched).launched ↔
      p ∈ sched ∧ i % p.2.splayed_interval = 0 := by
  intro sched
  induction sched with
  | nil => intro store p; simp [runTick]
  | cons hd tl ih =>
    obtain ⟨n, q⟩ := hd
    intro store p
    by_cases h : i % q.splayed_interval = 0
    · simp only [runTick, if_pos h, List.mem_cons, ih]
      constructor
      · rintro (rfl | ⟨hmem, hmod⟩)
        · exact ⟨Or.inl rfl, h⟩
        · exact ⟨Or.inr hmem, hmod⟩
      · rintro ⟨rfl | hmem, hmod⟩
        · exact Or.inl rfl
        · exact Or.inr ⟨hmem, hmod⟩
    · simp only [runTick, if_neg h, ih, List.mem_cons]
      constructor
      · rintro ⟨hmem, hmod⟩
        exact ⟨Or.inr hmem, hmod⟩
      · rintro ⟨rfl | hmem, hmod⟩
        · exact absurd hmod h
        · exact ⟨hmem, hmod⟩

/-- Claim C4: on a successful snapshot query (options map has `snapshot`
set to true) the emitted item carries the full current row set as its
snapshot payload and goes to the snapshot sink, and the Differential
Store state is left exactly as it was (never read, never written). -/
theorem launchQuery_snapshot_spec (ident : String) (store : Store) (n : String)
    (q : ScheduledQuery) (sql : SQL) (hok : sql.ok = true)
    (hsnap : q.options.lookup "snapshot" = some true) :
    launchQuery ident store n q sql =
      { store := store
        events := [LogEvent.snapshot
          { name := n, identifier := ident, snapshot_results := sql.rows
            results := { added := ∅, removed := ∅ } }] } := by
  simp [launchQuery, hok, hsnap]

/-- Claim C5: a differential query with option `removed` explicitly
false and a non-empty diff emits an item whose `removed` is cleared
while `added` is kept, and the persisted baseline is the full
unsuppressed new row set. -/
theorem launchQuery_removed_suppressed (ident : String) (store : Store)
    (n : String) (q : ScheduledQuery) (sql : SQL) (hok : sql.ok = true)
    (hsnap : ¬ q.options.lookup "snapshot" = some true)
    (hrem : q.options.lookup "removed" = some false)
    (hne : ¬((addResults store n sql.rows.toFinset).diff.added = ∅ ∧
             (addResults store n sql.rows.toFinset).diff.removed = ∅)) :
    launchQuery ident store n q sql =
      { store := (addResults store n sql.rows.toFinset).store
        events := [LogEvent.differential
          { name := n, identifier := ident, snapshot_results := []
            results := { added := (addResults store n sql.rows.toFinset).diff.added
                         removed := ∅ } }] } ∧
    storeGet (launchQuery ident store n q sql).store n
      = some sql.rows.toFinset := by
  have hmain : launchQuery ident store n q sql =
      { store := (addResults store n sql.rows.toFinset).store
        events := [LogEvent.differential
          { name := n, identifier := ident, snapshot_results := []
            results := { added := (addResults store n sql.rows.toFinset).diff.added
                         removed := ∅ } }] } := by
    simp only [launchQuery, hok, hsnap, eq_self_iff_true, if_true, if_false,
      ite_true, ite_false]
    rw [if_neg hne]
    rw [if_pos hrem]
  refine ⟨hmain, ?_⟩
  rw [hmain]
  simp [addResults, storeGet, storePut]

/-- Claim C6: a differential execution whose diff has empty `added` and
empty `removed` sends nothing to the logging sink. -/
theorem launchQuery_empty_diff (ident : String) (store : Store) (n : String)
    (q : ScheduledQuery) (sql : SQL) (hok : sql.ok = true)
    (hsnap : ¬ q.options.lookup "snapshot" = some true)
    (hempty : (addResults store n sql.rows.toFinset).diff.added = ∅ ∧
              (addResults store n sql.rows.toFinset).diff.removed = ∅) :
    (launchQuery ident store n q sql).events = [] := by
  simp [launchQuery, hok, hsnap, hempty]

/-- Claim C8: with monitoring enabled, `monitor` records a performance
sample iff both the before and the after self-process samples are
non-empty; the recorded output size is the summed character length of
all column names and values of the result rows; and the query's own
result is returned unchanged in every case. -/
theorem monitor_spec (name : String) (r0 : List Row) (t0 : Nat) (sql : SQL)
    (t1 : Nat) (r1 : List Row) :
    (monitor name r0 t0 sql t1 r1).sql = sql ∧
    ((monitor name r0 t0 sql t1 r1).sample.isSome ↔
      0 < r0.length ∧ 0 < r1.length) ∧
    (0 < r0.length → 0 < r1.length →
      (monitor name r0 t0 sql t1 r1).sample =
        some { name := name, duration := t1 - t0, size := rowsSize sql.rows
               before := r0.headD [], after := r1.headD [] }) := by
  by_cases h : 0 < r0.length ∧ 0 < r1.length
  · refine ⟨by simp [monitor, h], by simp [monitor, h], fun h0 h1 => ?_⟩
    simp [monitor, h]
  · refine ⟨by simp [monitor, h], by simp [monitor, h], fun h0 h1 => ?_⟩
    exact absurd ⟨h0, h1⟩ h

/-- Claim C10: absent option keys behave as unset, not as errors.  With
no `snapshot` key the query is processed as a differential query (store
updated to the new baseline via the Differential Store); with no
`removed` key the emitted item keeps the full removed set. -/
theorem launchQuery_absent_options (ident : String) (store : Store)
    (n : String) (q : ScheduledQuery) (sql : SQL) (hok : sql.ok = true)
    (hsnap : q.options.lookup "snapshot" = none)
    (hrem : q.options.lookup "removed" = none) :
    (launchQuery ident store n q sql).store
      = (addResults store n sql.rows.toFinset).store ∧
    storeGet (launchQuery ident store n q sql).store n
      = some sql.rows.toFinset ∧
    (launchQuery ident store n q sql).events =
      (if (addResults store n sql.rows.toFinset).diff.added = ∅ ∧
          (addResults store n sql.rows.toFinset).diff.removed = ∅
       then []
       else [LogEvent.differential
         { name := n, identifier := ident, snapshot_results := []
           results := (addResults store n sql.rows.toFinset).diff }]) := by
  have hsnap' : ¬ q.options.lookup "snapshot" = some true := by simp [hsnap]
  have hrem' : ¬ q.options.lookup "removed" = some false := by simp [hrem]
  have hmain : launchQuery ident store n q sql =
      (if (addResults store n sql.rows.toFinset).diff.added = ∅ ∧
          (addResults store n sql.rows.toFinset).diff.removed = ∅
       then ({ store := (addResults store n sql.rows.toFinset).store
               events := [] } : LaunchOut)
       else { store := (addResults store n sql.rows.toFinset).store
              events := [LogEvent.differential
                { name := n, identifier := ident, snapshot_results := []
                  results := (addResults store n sql.rows.toFinset).diff }] }) := by
    simp only [launchQuery, hok, hsnap', eq_self_iff_true, if_true, if_false,
      ite_true, ite_false]
    by_cases hempty : (addResults store n sql.rows.toFinset).diff.added = ∅ ∧
        (addResults store n sql.rows.toFinset).diff.removed = ∅
    · rw [if_pos hempty, if_pos hempty]
    · rw [if_neg hempty, if_neg hempty, if_neg hrem']
  refine ⟨?_, ?_, ?_⟩ <;> rw [hmain]
  · split_ifs <;> rfl
  · split_ifs <;> simp [addResults, storeGet, storePut]
  · split_ifs <;> rfl

/-- Closed form of the loop iteration count of `SchedulerRunner::start`
for a non-zero timeout: starting at tick counter `i`, the loop body runs
`timeout + 1 - i` times when `i ≤ timeout`, and never otherwise. -/
theorem loopIters_closed (timeout : Nat) :
    ∀ (k i : Nat), timeout + 1 - i = k →
    loopIters timeout i = if i ≤ timeout then timeout + 1 - i else 0 := by
  intro k
  induction k with
  | zero =>
    intro i hk
    have h : ¬ i ≤ timeout := by omega
    rw [loopIters, if_neg h, if_neg h]
  | succ k ih =>
    intro i hk
    by_cases h : i ≤ timeout
    · rw [loopIters, if_pos h, if_pos h, ih (i + 1) (by omega)]
      by_cases h2 : i + 1 ≤ timeout
      · rw [if_pos h2]; omega
      · rw [if_neg h2]; omega
    · rw [loopIters, if_neg h, if_neg h]

/-- Claim C3 counterexample: with the non-zero timeout 5 and the tick
counter initialized from a wall clock reading 0 seconds-of-minute, the
loop of `SchedulerRunner::start` performs 6 iterations, not exactly the
5 the claim requires. -/
theorem loopIters_not_exactly_timeout :
    loopIters 5 0 = 6 ∧ loopIters 5 0 ≠ 5 := by
  have h := loopIters_closed 5 6 0 rfl
  rw [if_pos (by omega)] at h
  exact ⟨h, by rw [h]; omega⟩

/-- Claim C3 (amended): for every non-zero timeout and initial
seconds-of-minute `s`, the loop performs `timeout − s + 1` tick
iterations when `s ≤ timeout` and none when `s > timeout`; for
timeout 0 the loop guard is always true, so the loop never terminates
on its own. -/
theorem schedLoop_iteration_count (timeout s : Nat) (h : timeout ≠ 0) :
    loopIters timeout s = (if s ≤ timeout then timeout + 1 - s else 0) ∧
    (∀ i : Nat, loopCond 0 i = true) := by
  refine ⟨loopIters_closed timeout (timeout + 1 - s) s rfl, fun i => ?_⟩
  simp [loopCond]

/-- Witness for the amended claim C3 at timeout 5 and initial counter
3: the hypothesis `5 ≠ 0` holds and the loop performs 3 iterations. -/
theorem schedLoop_iteration_count_witness :
    (5 : Nat) ≠ 0 ∧
    (loopIters 5 3 = (if 3 ≤ 5 then 5 + 1 - 3 else 0) ∧
     (∀ i : Nat, loopCond 0 i = true)) :=
  ⟨by omega, schedLoop_iteration_count 5 3 (by omega)⟩

/-- One-step unfolding of `schedLoop` while the guard holds. -/
theorem schedLoop_step (ident : String) (config : List (String × ScheduledQuery))
    (exec : String → SQL) (timeout j : Nat) (store : Store) (h : j ≤ timeout) :
    schedLoop ident config exec timeout j store =
      ((schedLoop ident config exec timeout (j + 1)
          (runTick ident exec j store config).store).1,
       (runTick ident exec j store config).events ++
         (schedLoop ident config exec timeout (j + 1)
           (runTick ident exec j store config).store).2) := by
  rw [schedLoop, if_pos h]

/-- One-step unfolding of `schedLoop` once the guard fails. -/
theorem schedLoop_stop (ident : String) (config : List (String × ScheduledQuery))
    (exec : String → SQL) (timeout j : Nat) (store : Store) (h : ¬ j ≤ timeout) :
    schedLoop ident config exec timeout j store = (store, []) := by
  rw [schedLoop, if_neg h]

/-- Claim C7: a query whose execution errors contributes no result item,
leaves the Differential Store baseline untouched, and the loop proceeds
unaffected to the remaining queries of the tick and to all subsequent
ticks. -/
theorem launchQuery_error_isolated (ident : String) (exec : String → SQL)
    (i timeout : Nat) (store : Store) (n : String) (q : ScheduledQuery)
    (rest : List (String × ScheduledQuery))
    (hex : (exec q.query).ok = false) :
    launchQuery ident store n q (exec q.query) = { store := store, events := [] } ∧
    (runTick ident exec i store ((n, q) :: rest)).store
      = (runTick ident exec i store rest).store ∧
    (runTick ident exec i store ((n, q) :: rest)).events
      = (runTick ident exec i store rest).events ∧
    schedLoop ident ((n, q) :: rest) exec timeout i store
      = schedLoop ident rest exec timeout i store := by
  have hl : ∀ store' : Store,
      launchQuery ident store' n q (exec q.query) = { store := store', events := [] } := by
    intro store'
    simp [launchQuery, hex]
  have hstep : ∀ (j : Nat) (store' : Store),
      (runTick ident exec j store' ((n, q) :: rest)).store
        = (runTick ident exec j store' rest).store ∧
      (runTick ident exec j store' ((n, q) :: rest)).events
        = (runTick ident exec j store' rest).events := by
    intro j store'
    by_cases h : j % q.splayed_interval = 0
    · simp [runTick, h, hl]
    · simp [runTick, h]
  have hloop : ∀ (k j : Nat), timeout + 1 - j = k → ∀ store' : Store,
      schedLoop ident ((n, q) :: rest) exec timeout j store'
        = schedLoop ident rest exec timeout j store' := by
    intro k
    induction k with
    | zero =>
      intro j hk store'
      have hj : ¬ j ≤ timeout := by omega
      rw [schedLoop_stop _ _ _ _ _ _ hj, schedLoop_stop _ _ _ _ _ _ hj]
    | succ k ih =>
      intro j hk store'
      by_cases hj : j ≤ timeout
      · rw [schedLoop_step _ _ _ _ _ _ hj, schedLoop_step _ _ _ _ _ _ hj]
        rw [(hstep j store').1, (hstep j store').2, ih (j + 1) (by omega)]
      · rw [schedLoop_stop _ _ _ _ _ _ hj, schedLoop_stop _ _ _ _ _ _ hj]
  exact ⟨hl store, (hstep i store).1, (hstep i store).2,
    hloop (timeout + 1 - i) i rfl store⟩

/-- Claim C9: every entry of a built schedule snapshot has a strictly
positive splayed interval, so the due-check `i % splayed_interval` in
the tick loop is always applied with a positive divisor. -/
theorem buildSchedule_positive (raw : List (String × ScheduledQuery))
    (p : String × ScheduledQuery) (hmem : p ∈ buildSchedule raw) :
    0 < p.2.splayed_interval := by
  simp only [buildSchedule, List.mem_filter, decide_eq_true_eq] at hmem
  exact hmem.2

/-- Witness for claim C9: the schedule built from a raw list holding one
valid query and one zero-interval query contains the valid entry, whose
splayed interval is positive. -/
theorem buildSchedule_positive_witness :
    ("a", wPlainQ) ∈ buildSchedule [("a", wPlainQ), ("b", wZeroQ)] ∧
    0 < ("a", wPlainQ).2.splayed_interval :=
  ⟨by decide, buildSchedule_positive [("a", wPlainQ), ("b", wZeroQ)]
    ("a", wPlainQ) (by decide)⟩

/-- Witness for claim C4 at a concrete snapshot query: the hypotheses
hold by evaluation and the emitted item carries the full row set while
the store is unchanged. -/
theorem launchQuery_snapshot_spec_witness :
    wSql.ok = true ∧
    wSnapQ.options.lookup "snapshot" = some true ∧
    launchQuery "host" [] "nm" wSnapQ wSql =
      { store := []
        events := [LogEvent.snapshot
          { name := "nm", identifier := "host", snapshot_results := wSql.rows
            results := { added := ∅, removed := ∅ } }] } :=
  ⟨rfl, by decide, launchQuery_snapshot_spec "host" [] "nm" wSnapQ wSql rfl (by decide)⟩

/-- Witness for claim C5 at a concrete query with `removed` false, an
absent baseline and one result row: the diff is non-empty, the emitted
item has `removed` cleared, and the full row set is persisted. -/
theorem launchQuery_removed_suppressed_witness :
    wSql.ok = true ∧
    (¬ wRemQ.options.lookup "snapshot" = some true) ∧
    wRemQ.options.lookup "removed" = some false ∧
    (¬((addResults [] "nm" wSql.rows.toFinset).diff.added = ∅ ∧
       (addResults [] "nm" wSql.rows.toFinset).diff.removed = ∅)) ∧
    (launchQuery "host" [] "nm" wRemQ wSql =
      { store := (addResults [] "nm" wSql.rows.toFinset).store
        events := [LogEvent.differential
          { name := "nm", identifier := "host", snapshot_results := []
            results := { added := (addResults [] "nm" wSql.rows.toFinset).diff.added
                         removed := ∅ } }] } ∧
     storeGet (launchQuery "host" [] "nm" wRemQ wSql).store "nm"
       = some wSql.rows.toFinset) :=
  ⟨rfl, by decide, by decide, by decide,
   launchQuery_removed_suppressed "host" [] "nm" wRemQ wSql rfl
     (by decide) (by decide) (by decide)⟩

/-- Witness for claim C6 at a concrete differential query whose new
rows equal the stored baseline: the diff is empty and nothing is
emitted. -/
theorem launchQuery_empty_diff_witness :
    wSql.ok = true ∧
    (¬ wPlainQ.options.lookup "snapshot" = some true) ∧
    ((addResults wStore "nm" wSql.rows.toFinset).diff.added = ∅ ∧
     (addResults wStore "nm" wSql.rows.toFinset).diff.removed = ∅) ∧
    (launchQuery "host" wStore "nm" wPlainQ wSql).events = [] :=
  ⟨rfl, by decide, by decide,
   launchQuery_empty_diff "host" wStore "nm" wPlainQ wSql rfl
     (by decide) (by decide)⟩

/-- Witness for claim C8 at concrete self-samples and a concrete result
set: the monitor records a sample with the summed output size and
returns the query result unchanged. -/
theorem monitor_spec_witness :
    (monitor "nm" [wRow] 10 wSql 12 [wRow]).sql = wSql ∧
    ((monitor "nm" [wRow] 10 wSql 12 [wRow]).sample.isSome ↔
      0 < ([wRow] : List Row).length ∧ 0 < ([wRow] : List Row).length) ∧
    (0 < ([wRow] : List Row).length → 0 < ([wRow] : List Row).length →
      (monitor "nm" [wRow] 10 wSql 12 [wRow]).sample =
        some { name := "nm", duration := 12 - 10, size := rowsSize wSql.rows
               before := ([wRow] : List Row).headD []
               after := ([wRow] : List Row).headD [] }) :=
  monitor_spec "nm" [wRow] 10 wSql 12 [wRow]

/-- Witness for claim C10 at a concrete query with an empty options
map: the query is processed differentially and the emitted item keeps
the full removed set. -/
theorem launchQuery_absent_options_witness :
    wSql.ok = true ∧
    wPlainQ.options.lookup "snapshot" = none ∧
    wPlainQ.options.lookup "removed" = none ∧
    ((launchQuery "host" [] "nm" wPlainQ wSql).store
        = (addResults [] "nm" wSql.rows.toFinset).store ∧
     storeGet (launchQuery "host" [] "nm" wPlainQ wSql).store "nm"
        = some wSql.rows.toFinset ∧
     (launchQuery "host" [] "nm" wPlainQ wSql).events =
       (if (addResults [] "nm" wSql.rows.toFinset).diff.added = ∅ ∧
           (addResults [] "nm" wSql.rows.toFinset).diff.removed = ∅
        then []
        else [LogEvent.differential
          { name := "nm", identifier := "host", snapshot_results := []
            results := (addResults [] "nm" wSql.rows.toFinset).diff }])) :=
  ⟨rfl, by decide, by decide,
   launchQuery_absent_options "host" [] "nm" wPlainQ wSql rfl
     (by decide) (by decide)⟩

/-- Witness for claim C7 at a concrete always-failing executor: the
failing query emits nothing, the store is untouched, and the loop over
the rest of the schedule and the subsequent ticks is unaffected. -/
theorem launchQuery_error_isolated_witness :
    (wExecBad wPlainQ.query).ok = false ∧
    (launchQuery "host" [] "nm" wPlainQ (wExecBad wPlainQ.query)
        = { store := [], events := [] } ∧
     (runTick "host" wExecBad 0 [] [("nm", wPlainQ)]).store
        = (runTick "host" wExecBad 0 [] []).store ∧
     (runTick "host" wExecBad 0 [] [("nm", wPlainQ)]).events
        = (runTick "host" wExecBad 0 [] []).events ∧
     schedLoop "host" [("nm", wPlainQ)] wExecBad 1 0 []
        = schedLoop "host" [] wExecBad 1 0 []) :=
  ⟨rfl, launchQuery_error_isolated "host" wExecBad 0 1 [] "nm" wPlainQ [] rfl⟩

end OsquerySched
